import Mathlib

/-!
Verification development for the face-swap subsystem of `octaspace/wunjo`
(`src/deepfake/src/utils/faceswap.py`), a shallow embedding of the class
`FaceSwapDeepfake` and its helpers.

Modelling conventions:
* Python strings (file names) are sequences of code points: `List ℕ`,
  compared lexicographically exactly as Python compares `str`.
* Image buffers are opaque contents `Img := List ℕ`; a `Frame` bundles an
  image together with what the external collaborators report about it:
  its shape (`height`, `width`), the detector output `dets`
  (`FaceRecognition.get_faces`) and the content-filter verdict `safe`
  (`NudeDetector.status`).  The detector, the safety filter, the swap model
  (`face_swap_model.get`) and the embedding-similarity test
  (`FaceRecognition.is_similar_face`) are external collaborators of this
  core and enter the model as data (`Frame` fields) or function parameters
  (`swapFn`, `sim`).
* Python `float` coordinates are modelled as `ℚ`; `int(x)` is truncation
  towards zero (`pyInt`); `math.sqrt` is `Real.sqrt`, so the two
  distance helpers land in `ℝ`.
* Fallible code returns `Except PipeError`; `FaceNotDetectedError` is
  `PipeError.faceNotDetected` carrying the source's message string.
-/

namespace Wunjo

/-- Python string: its sequence of unicode code points. -/
abbrev PyStr := List ℕ

/-- Code points of a Lean string literal, used to write concrete Python strings. -/
def codes (s : String) : List ℕ := s.toList.map Char.toNat

/-- Opaque image contents. -/
abbrev Img := List ℕ

/-- Opaque face embedding identifier (`face.normed_embedding`); compared only
through the external similarity collaborator. -/
abbrev Emb := ℕ

/-- Gender label as insightface reports it (an integer). -/
abbrev Gender := ℕ

/-- Opaque source face (`source_face` argument of the swap model). -/
abbrev SrcFace := ℕ

/-- Bounding box `face.bbox = (x1, y1, x2, y2)` in image pixel coordinates. -/
structure BBox where
  x1 : ℚ
  y1 : ℚ
  x2 : ℚ
  y2 : ℚ
deriving DecidableEq, Repr

/-- Face descriptor: what `FaceRecognition.get_faces` returns for one face. -/
structure Face where
  bbox : BBox
  gender : Gender
  normed_embedding : Emb
deriving DecidableEq, Repr

instance : Inhabited Face := ⟨⟨⟨0, 0, 0, 0⟩, 0, 0⟩⟩

/-- Target selector dictionary `squareFace` with keys `canvasWidth`,
`canvasHeight`, `x`, `y`. -/
structure SquareFace where
  canvasWidth : ℚ
  canvasHeight : ℚ
  x : ℚ
  y : ℚ
deriving DecidableEq, Repr

/-- One frame as the pipeline sees it after `cv2.imread`: its shape plus the
collaborator verdicts for this image (detector output and safety verdict). -/
structure Frame where
  height : ℕ
  width : ℕ
  dets : List Face
  safe : Bool
  img : Img
deriving DecidableEq, Repr

instance : Inhabited Frame := ⟨⟨0, 0, [], false, []⟩⟩

/-- Embedding-similarity collaborator
`FaceRecognition.is_similar_face(normed_embedding, face_embedding_list, similar_coeff)`. -/
abbrev SimFn := Emb → List Emb → ℚ → Bool

/-- Swap-model collaborator `face_swap_model.get(frame, face, source_face, paste_back=True)`. -/
abbrev SwapFn := Img → Face → SrcFace → Img

/-- Python `int(_)` on a float value: truncation towards zero. -/
def pyInt (q : ℚ) : ℤ := if q < 0 then ⌈q⌉ else ⌊q⌋

/-- Python truthiness of an optional integer argument (`if start_frame and ...`):
`None` and `0` are falsy. -/
def pyTruthy : Option ℕ → Bool
  | none => false
  | some k => k != 0

/-- Python slice `l[a:b]` for nonnegative bounds. -/
def pySlice (a b : ℕ) (l : List α) : List α := (l.drop a).take (b - a)

/-- Lexicographic comparison of Python strings (`s <= t` on code points). -/
def pyStrLe : List ℕ → List ℕ → Bool
  | [], _ => true
  | _ :: _, [] => false
  | a :: as, b :: bs => if a < b then true else if a = b then pyStrLe as bs else false

/-- Insert into a sorted list, placing the new element before the first element
it compares `le` to; auxiliary to `sortLe`. -/
def insertLe (le : α → α → Bool) (x : α) : List α → List α
  | [] => [x]
  | y :: ys => if le x y then x :: y :: ys else y :: insertLe le x ys

/-- Stable comparison sort modelling Python's `sorted` / `list.sort`. -/
def sortLe (le : α → α → Bool) : List α → List α
  | [] => []
  | x :: xs => insertLe le x (sortLe le xs)

/-- Decimal digit characters of `n` (most significant first), as code points;
`fuel`-structured so that it computes by kernel reduction. -/
def digitsAux : ℕ → ℕ → List ℕ
  | 0, _ => []
  | _ + 1, 0 => []
  | fuel + 1, n + 1 => digitsAux fuel ((n + 1) / 10) ++ [48 + (n + 1) % 10]

/-- Python `f"{n:04d}"`: decimal digits of `n` left-padded with `'0'` to width 4.
For `n < 10000` this is exactly the four decimal digits of `n`. -/
def pad04 (n : ℕ) : List ℕ :=
  if n < 10000 then [48 + n / 1000, 48 + n / 100 % 10, 48 + n / 10 % 10, 48 + n % 10]
  else digitsAux n n

/-- Intermediate frame file name `f"frame_{idx:04d}.png"` used by `process_frame`. -/
def frameName (idx : ℕ) : PyStr := codes "frame_" ++ pad04 idx ++ codes ".png"

/-- Containment test `x1 <= x_center <= x2 and y1 <= y_center <= y2` used
throughout `faceswap.py`. -/
def bbox_contains (b : BBox) (cx cy : ℤ) : Bool :=
  decide (b.x1 ≤ (cx : ℚ) ∧ (cx : ℚ) ≤ b.x2 ∧ b.y1 ≤ (cy : ℚ) ∧ (cy : ℚ) ≤ b.y2)

/-- Method `get_real_crop_box(frame, squareFace)`: maps the canvas-space
selector to an image-space center, or `(None, None)` without a selector. -/
def get_real_crop_box (fr : Frame) (squareFace : Option SquareFace) : Option ℤ × Option ℤ :=
  match squareFace with
  | some sq =>
    let scaleFactorX : ℚ := (fr.width : ℚ) / sq.canvasWidth
    let scaleFactorY : ℚ := (fr.height : ℚ) / sq.canvasHeight
    let newX1 := sq.x * scaleFactorX
    let newX2 := (sq.x + 1) * scaleFactorX
    let newY1 := sq.y * scaleFactorY
    let newY2 := (sq.y + 1) * scaleFactorY
    let center_x := (newX1 + newX2) / 2
    let center_y := (newY1 + newY2) / 2
    (some (pyInt center_x), some (pyInt center_y))
  | none => (none, none)

/-- Method `get_min_distance(image, threshold=0.35)`: the threshold percentage
of the image diagonal. -/
noncomputable def get_min_distance (fr : Frame) (threshold : ℝ := 0.35) : ℝ :=
  Real.sqrt ((fr.height : ℝ) ^ 2 + (fr.width : ℝ) ^ 2) * threshold

/-- Static method `get_center(face)`. -/
def get_center (face : Face) : ℤ × ℤ :=
  (pyInt ((face.bbox.x1 + face.bbox.x2) / 2), pyInt ((face.bbox.y1 + face.bbox.y2) / 2))

/-- Static method `euclidean_distance(point1, point2)` on integer points. -/
noncomputable def euclidean_distance (point1 point2 : ℤ × ℤ) : ℝ :=
  Real.sqrt (((point1.1 - point2.1 : ℤ) : ℝ) ^ 2 + ((point1.2 - point2.2 : ℤ) : ℝ) ^ 2)

/-- Mutable locals of the identity-tracking loop in
`face_detect_with_alignment_crop`: `x_center`, `y_center`, `face_gender`,
`face_embedding_list` and (mutated by the frame-0 fallback) `min_distance`. -/
structure TrackState where
  xc : Option ℤ
  yc : Option ℤ
  gender : Option Gender
  hist : List Emb
  minDist : ℝ

/-- State update repeated at each adoption site of
`face_detect_with_alignment_crop` (set `face_gender`, extend
`face_embedding_list`, reset `x_center`/`y_center` to the adopted box center). -/
def adoptFace (st : TrackState) (f : Face) : TrackState :=
  { st with
    gender := some f.gender
    hist := st.hist ++ [f.normed_embedding]
    xc := some (pyInt ((f.bbox.x1 + f.bbox.x2) / 2))
    yc := some (pyInt ((f.bbox.y1 + f.bbox.y2) / 2)) }

/-- Frame-0 fallback scan (lines 188-194): keep the strictly closest face,
lowering `min_distance` as the scan proceeds. -/
noncomputable def closestFold (c : ℤ × ℤ) : List Face → ℝ → Option Face → Option Face × ℝ
  | [], md, closest => (closest, md)
  | f :: rest, md, closest =>
    if euclidean_distance c (get_center f) < md then
      closestFold c rest (euclidean_distance c (get_center f)) (some f)
    else
      closestFold c rest md closest

/-- Entry of `local_face_param` built in the warm-tracking branch
(lines 211-219 of `faceswap.py`). -/
structure FaceParam where
  is_center : Bool
  is_gender : Bool
  is_embed : Bool
  bbox : BBox
  gender : Gender
  embed : Emb
  id : ℕ
deriving DecidableEq, Repr

/-- Parameter list built by the loop at lines 204-219.  Note the source
reassigns `x_center`/`y_center` to each candidate's own box center (lines
206-207) before the containment test at line 210, so `is_center` compares a
face's box against that face's own truncated center. -/
def warmParams (sim : SimFn) (coeff : ℚ) (st : TrackState) (dets : List Face) : List FaceParam :=
  dets.enum.map fun p =>
    let i := p.1
    let face := p.2
    let cx := pyInt ((face.bbox.x1 + face.bbox.x2) / 2)
    let cy := pyInt ((face.bbox.y1 + face.bbox.y2) / 2)
    { is_center := bbox_contains face.bbox cx cy
      is_gender := decide (st.gender = some face.gender)
      is_embed := sim face.normed_embedding st.hist coeff
      bbox := face.bbox
      gender := face.gender
      embed := face.normed_embedding
      id := i }

/-- Selection loop at lines 220-232: accept a parameter when
`(is_center or is_gender) and is_embed`, updating the tracker state per
acceptance, and stop after the first acceptance unless `similarface`. -/
def warmSelect (similarface : Bool) (dets : List Face) :
    TrackState → List FaceParam → TrackState × List Face
  | st, [] => (st, [])
  | st, p :: rest =>
    if (p.is_center || p.is_gender) && p.is_embed then
      let st' : TrackState :=
        { st with
          gender := some p.gender
          hist := st.hist ++ [p.embed]
          xc := some (pyInt ((p.bbox.x1 + p.bbox.x2) / 2))
          yc := some (pyInt ((p.bbox.y1 + p.bbox.y2) / 2)) }
      let pred := dets.getD p.id default
      if !similarface then (st', [pred])
      else
        let r := warmSelect similarface dets st' rest
        (r.1, pred :: r.2)
    else
      warmSelect similarface dets st rest

/-- One iteration of the frame loop of `face_detect_with_alignment_crop`
(lines 161-236): returns the updated mutable state and the groups appended to
`predictions` during this iteration (one group normally; none at all on the
cold-start branches that fall through without appending). -/
noncomputable def cropStep (sim : SimFn) (coeff : ℚ) (similarface : Bool) (n : ℕ)
    (st : TrackState) (fr : Frame) : TrackState × List (List (Option Face)) :=
  match fr.dets with
  | [] => (st, [[none]])
  | face0 :: _ =>
    match st.xc, st.yc with
    | none, _ =>
      (adoptFace st face0, [[some face0]])
    | some _, none =>
      (adoptFace st face0, [[some face0]])
    | some cx, some cy =>
      match st.hist with
      | [] =>
        match fr.dets.find? (fun f => bbox_contains f.bbox cx cy) with
        | some f => (adoptFace st f, [[some f]])
        | none =>
          if n = 0 then
            match closestFold (cx, cy) fr.dets st.minDist none with
            | (some f, md') => ({ adoptFace st f with minDist := md' }, [[some f]])
            | (none, md') => ({ st with minDist := md' }, [])
          else
            (st, [])
      | _ :: _ =>
        let params := warmParams sim coeff st fr.dets
        let lastF := (fr.dets.getLast?).getD face0
        let stMid : TrackState :=
          { st with
            xc := some (pyInt ((lastF.bbox.x1 + lastF.bbox.x2) / 2))
            yc := some (pyInt ((lastF.bbox.y1 + lastF.bbox.y2) / 2)) }
        let r := warmSelect similarface fr.dets stMid params
        match r.2 with
        | [] => (r.1, [[none]])
        | preds@(_ :: _) => (r.1, [preds.map some])

/-- Frame loop of `face_detect_with_alignment_crop`, threading the mutable
state and concatenating whatever each iteration appends to `predictions`. -/
noncomputable def trackLoop (sim : SimFn) (coeff : ℚ) (similarface : Bool) :
    TrackState → ℕ → List Frame → List (List (Option Face))
  | _, _, [] => []
  | st, n, fr :: rest =>
    let r := cropStep sim coeff similarface n st fr
    r.2 ++ trackLoop sim coeff similarface r.1 (n + 1) rest

/-- Initial tracker state (lines 152-159): center from the first frame and the
selector, empty gender and embedding history, `min_distance` from the first
frame's diagonal. -/
noncomputable def initTrackState (first : Frame) (face_fields : Option SquareFace) : TrackState :=
  { xc := (get_real_crop_box first face_fields).1
    yc := (get_real_crop_box first face_fields).2
    gender := none
    hist := []
    minDist := get_min_distance first }

/-- Method `face_detect_with_alignment_crop(image_files, face_fields)`: the
identity tracker over a frame sequence.  The source reads `image_files[0]`
up front; an empty sequence is outside its domain and yields `[]` here. -/
noncomputable def face_detect_with_alignment_crop (sim : SimFn) (coeff : ℚ) (similarface : Bool)
    (frames : List Frame) (face_fields : Option SquareFace) : List (List (Option Face)) :=
  match frames with
  | [] => []
  | first :: _ => trackLoop sim coeff similarface (initTrackState first face_fields) 0 frames

/-- Method `face_detect_with_alignment_all(image_files)`: every detected face
of every frame, `[None]` for detection-free frames. -/
def face_detect_with_alignment_all : List Frame → List (List (Option Face))
  | [] => []
  | fr :: rest =>
    (match fr.dets with
     | [] => [none]
     | ds => ds.map some) :: face_detect_with_alignment_all rest

/-- Detection dispatch shared by both video strategies (lines 320-325 and
385-390): all faces when `multiface`, tracked target faces otherwise. -/
noncomputable def chooseDetResults (sim : SimFn) (coeff : ℚ) (similarface : Bool)
    (multiface : Bool) (frames : List Frame) (face_fields : Option SquareFace) :
    List (List (Option Face)) :=
  if multiface then face_detect_with_alignment_all frames
  else face_detect_with_alignment_crop sim coeff similarface frames face_fields

/-- Swap loop shared by `process_frame` (lines 260-264) and the sequential
strategy (lines 404-408): stop at the first `None`, otherwise feed each swap
result into the next. -/
def swapLoop (swapFn : SwapFn) (src : SrcFace) : Img → List (Option Face) → Img
  | img, [] => img
  | img, none :: _ => img
  | img, some f :: rest => swapLoop swapFn src (swapFn img f src) rest

/-- Method `process_frame(args)` of the threaded strategy: the zero-padded
intermediate file name for slot `idx` and the frame written there (swapped when
the content filter reports safe, the unmodified frame otherwise). -/
def process_frame (swapFn : SwapFn) (src : SrcFace) (fr : Frame)
    (face_det_result : List (Option Face)) (idx : ℕ) : PyStr × Img :=
  (frameName idx, if fr.safe then swapLoop swapFn src fr.img face_det_result else fr.img)

/-- Per-frame body of the sequential strategy (lines 401-411), textually
duplicated from `process_frame` in the source. -/
def cudaFrameImg (swapFn : SwapFn) (src : SrcFace) (fr : Frame)
    (dets : List (Option Face)) : Img :=
  if fr.safe then swapLoop swapFn src fr.img dets else fr.img

/-- Directory scan of `swap_video_thread` (line 300): keep `.jpg` and `.png`
entries, sorted.  Joining with the directory path prefixes every name with the
same string and does not change the sort order, so the model sorts bare names. -/
def threadFrameFiles (listing : List PyStr) : List PyStr :=
  sortLe pyStrLe
    (listing.filter fun f => (codes ".jpg").isSuffixOf f || (codes ".png").isSuffixOf f)

/-- Directory scan of `swap_video_cuda` (line 365): keep only `.png` entries,
sorted. -/
def cudaFrameFiles (listing : List PyStr) : List PyStr :=
  sortLe pyStrLe (listing.filter fun f => (codes ".png").isSuffixOf f)

/-- Range narrowing shared by both strategies (lines 303-304 and 368-369):
`frame_files[start_frame:end_frame]`, applied only when both bounds are truthy. -/
def rangeFiles (start_frame end_frame : Option ℕ) (files : List PyStr) : List PyStr :=
  if pyTruthy start_frame && pyTruthy end_frame then
    pySlice (start_frame.getD 0) (end_frame.getD 0) files
  else files

/-- Method `swap_video_thread(...)`: the sequence of frames written to the
output video, in write order.  `read` is the `cv2.imread` collaborator (plus
the per-image collaborator verdicts).  Phase 2 writes the worker results
after sorting the intermediate file names (lines 331-348), between the
verbatim head copies (`full_frame_files[:start_frame]`, line 341) and tail
copies (`full_frame_files[end_frame:]`, line 350).  The source indexes
`face_det_results[i]` for every frame index and raises `IndexError` whenever
the tracker returns fewer selections than frames (the C4 defect); the model
totalizes that indexing with `getD i [none]`, so theorems that quantify over
inputs must carry a one-selection-per-frame hypothesis to stay on the
source's non-raising domain. -/
noncomputable def swap_video_thread (sim : SimFn) (coeff : ℚ) (similarface : Bool)
    (read : PyStr → Frame) (swapFn : SwapFn) (src : SrcFace) (listing : List PyStr)
    (face_fields : Option SquareFace) (multiface : Bool)
    (start_frame end_frame : Option ℕ) : List Img :=
  let full := threadFrameFiles listing
  let files := rangeFiles start_frame end_frame full
  let frames := files.map read
  let dres := chooseDetResults sim coeff similarface multiface frames face_fields
  let pairs := (List.range files.length).map fun i =>
    process_frame swapFn src (frames.getD i default) (dres.getD i [none]) i
  let mid := (sortLe (fun a b => pyStrLe a.1 b.1) pairs).map (·.2)
  let leadCopies :=
    if pyTruthy start_frame then (full.take (start_frame.getD 0)).map (fun f => (read f).img)
    else []
  let tailCopies :=
    if pyTruthy end_frame then (full.drop (end_frame.getD 0)).map (fun f => (read f).img)
    else []
  leadCopies ++ mid ++ tailCopies

/-- Method `swap_video_cuda(...)`: the sequence of frames written to the output
video, in write order.  Phase 2 iterates `enumerate(face_det_results)` in
order, reading `frame_files[i]` (lines 401-412). -/
noncomputable def swap_video_cuda (sim : SimFn) (coeff : ℚ) (similarface : Bool)
    (read : PyStr → Frame) (swapFn : SwapFn) (src : SrcFace) (listing : List PyStr)
    (face_fields : Option SquareFace) (multiface : Bool)
    (start_frame end_frame : Option ℕ) : List Img :=
  let full := cudaFrameFiles listing
  let files := rangeFiles start_frame end_frame full
  let frames := files.map read
  let dres := chooseDetResults sim coeff similarface multiface frames face_fields
  let mid := (List.range dres.length).map fun i =>
    cudaFrameImg swapFn src (frames.getD i default) (dres.getD i [none])
  let leadCopies :=
    if pyTruthy start_frame then (full.take (start_frame.getD 0)).map (fun f => (read f).img)
    else []
  let tailCopies :=
    if pyTruthy end_frame then (full.drop (end_frame.getD 0)).map (fun f => (read f).img)
    else []
  leadCopies ++ mid ++ tailCopies

/-- Raised exception `FaceNotDetectedError(msg)`. -/
inductive PipeError where
  | faceNotDetected : String → PipeError
deriving DecidableEq, Repr

/-- First index of a strictly minimal element, auxiliary to `pyMinIdx`. -/
def pyMinIdxAux : List ℚ → ℕ → ℕ → ℚ → ℕ
  | [], _, besti, _ => besti
  | d :: rest, i, besti, bestd =>
    if d < bestd then pyMinIdxAux rest (i + 1) i d
    else pyMinIdxAux rest (i + 1) besti bestd

/-- Python `min(range(len(distances)), key=distances.__getitem__)`: index of
the first minimal entry. -/
def pyMinIdx : List ℚ → ℕ
  | [] => 0
  | d :: rest => pyMinIdxAux rest 1 0 d

/-- Manhattan center distances built in the still-image loop (line 444):
`abs((x1 + x2) / 2 - x_center) + abs((y1 + y2) / 2 - y_center)`. -/
def imageDistances (dets : List Face) (cx cy : ℤ) : List ℚ :=
  dets.map fun f =>
    |(f.bbox.x1 + f.bbox.x2) / 2 - (cx : ℚ)| + |(f.bbox.y1 + f.bbox.y2) / 2 - (cy : ℚ)|

/-- Method `swap_image(target_frame, source_face, face_fields, save_dir,
multiface=False)`: the resulting image, or the raised `FaceNotDetectedError`. -/
def swap_image (swapFn : SwapFn) (src : SrcFace) (fr : Frame)
    (face_fields : Option SquareFace) (multiface : Bool) : Except PipeError Img :=
  if fr.safe then
    match fr.dets with
    | [] => .error (.faceNotDetected "Face is not detected in target image!")
    | _ :: _ =>
      match get_real_crop_box fr face_fields with
      | (some cx, some cy) =>
        if multiface then
          .ok (fr.dets.foldl (fun img f => swapFn img f src) fr.img)
        else
          match fr.dets.find? (fun f => bbox_contains f.bbox cx cy) with
          | some f => .ok (swapFn fr.img f src)
          | none =>
            let distances := imageDistances fr.dets cx cy
            if 0 < distances.length then
              .ok (swapFn fr.img (fr.dets.getD (pyMinIdx distances) default) src)
            else
              .error (.faceNotDetected "Face is not detected in user crop field in target image!")
      | _ =>
        .ok (fr.dets.foldl (fun img f => swapFn img f src) fr.img)
  else
    .ok fr.img


/-! Concrete inputs used by the claim theorems and witnesses below.  Each
frame carries the collaborator verdicts (`dets`, `safe`) for its image, and
the `read`, `sim` and `swapFn` collaborators are given as plain functions. -/

/-- Frame-0 face for the C1 run: box `(0,0,10,10)`, gender `0`, embedding `0`. -/
def c1Face0 : Face := ⟨⟨0, 0, 10, 10⟩, 0, 0⟩

/-- Frame-1 face for the C1 run: box `(100,100,200,200)` far from the tracked
center `(5,5)`, gender `1` (different), embedding `7`. -/
def c1Face1 : Face := ⟨⟨100, 100, 200, 200⟩, 1, 7⟩

/-- First frame of the C1 run. -/
def c1Frame0 : Frame := ⟨300, 300, [c1Face0], true, []⟩

/-- Second frame of the C1 run. -/
def c1Frame1 : Frame := ⟨300, 300, [c1Face1], true, []⟩

/-- Similarity collaborator for the C1 run: every embedding counts as similar
to the history. -/
def c1Sim : SimFn := fun _ _ _ => true

/-- Directory listing for the C2 counterexample: one `.jpg` and one `.png`. -/
def c2Listing : List PyStr := [codes "a.jpg", codes "b.png"]

/-- Read collaborator for the C2 and C3 runs: a detection-free safe frame whose
image contents are its file name. -/
def c2Read : PyStr → Frame := fun s => ⟨10, 10, [], true, s⟩

/-- Listing for the C2 amended witness: two `.png` files. -/
def c2wListing : List PyStr := [codes "b.png", codes "a.png"]

/-- Directory listing for the C3 failing input: three `.png` frames. -/
def c3Listing : List PyStr := [codes "0000.png", codes "0001.png", codes "0002.png"]

/-- Selector for the C4 failing input: canvas-space point mapping to image
center `(0,0)`. -/
def c4Sq : SquareFace := ⟨100, 100, 0, 0⟩

/-- Face of the second C4 frame: box `(50,50,60,60)`, away from `(0,0)`. -/
def c4Face : Face := ⟨⟨50, 50, 60, 60⟩, 0, 0⟩

/-- First C4 frame: no detections at all. -/
def c4Frame0 : Frame := ⟨100, 100, [], true, []⟩

/-- Second C4 frame: one face whose box misses the selector center. -/
def c4Frame1 : Frame := ⟨100, 100, [c4Face], true, []⟩

/-- File names for the C5 counterexample run: `i` letters `a` then `.png`,
which is strictly increasing in lexicographic order. -/
def c5Name (i : ℕ) : PyStr := List.replicate i 97 ++ codes ".png"

/-- Directory listing of 10001 frames for the C5 counterexample. -/
def c5Listing : List PyStr := (List.range 10001).map c5Name

/-- Read collaborator for the C5 runs: detection-free safe frames whose image
contents are the file name. -/
def c5Read : PyStr → Frame := fun s => ⟨10, 10, [], true, s⟩

/-- Listing for the C5 amended witness: three `.png` files, exercised with a
narrowed frame range. -/
def c5wListing : List PyStr := [codes "c.png", codes "a.png", codes "b.png"]

/-- Face present in the C6 witness frame. -/
def c6Face : Face := ⟨⟨0, 0, 10, 10⟩, 0, 0⟩

/-- Unsafe frame for the C6 witness: the content filter reports `false`. -/
def c6Frame : Frame := ⟨10, 10, [c6Face], false, [5]⟩

/-- Swap collaborator for the C6 witness: would visibly rewrite the image if it
were ever invoked. -/
def c6Swap : SwapFn := fun _ _ _ => [999]

/-- Safe but detection-free frame for the C7 witness. -/
def c7Frame : Frame := ⟨10, 10, [], true, [3]⟩

/-- Tracker state for the C7 witness. -/
def c7St : TrackState := ⟨none, none, none, [], 0⟩

/-- Face for the C8 witness: box `(6,0,10,8)`, center `(8,4)`, missing the
selector center `(0,0)` but within the distance budget. -/
def c8Face : Face := ⟨⟨6, 0, 10, 8⟩, 1, 3⟩

/-- First frame for the C8 witness: 30 by 40, so the diagonal is 50 and the
fallback budget is `17.5`. -/
def c8Frame : Frame := ⟨30, 40, [c8Face], true, []⟩

/-- Selector for the C8 witness, mapping to image center `(0,0)`. -/
def c8Sq : SquareFace := ⟨40, 30, 0, 0⟩

/-- Tracker state for the C8 witness: selector center `(0,0)`, empty history,
budget `17.5` (35 percent of the 30-by-40 frame's diagonal 50); shown equal to
`initTrackState c8Frame (some c8Sq)` in the witness. -/
noncomputable def c8St : TrackState := ⟨some 0, some 0, none, [], 35 / 2⟩

/-- Frame for the C9 witness: two detected faces. -/
def c9Frame : Frame := ⟨20, 20, [⟨⟨0, 0, 5, 5⟩, 0, 1⟩, ⟨⟨10, 10, 15, 15⟩, 1, 2⟩], true, [7]⟩

/-- Face of the C10 witness frame, away from the selector center. -/
def c10Face : Face := ⟨⟨50, 50, 60, 60⟩, 0, 4⟩

/-- Safe frame for the C10 witness with one face missing the selector center. -/
def c10Frame : Frame := ⟨100, 100, [c10Face], true, [9]⟩

/-- Selector for the C10 witness, mapping to image center `(0,0)`. -/
def c10Sq : SquareFace := ⟨100, 100, 0, 0⟩

/-! Helper lemmas about the Python-string order, the stable sort, the
zero-padded frame names, and the tracker loop. -/

theorem pyStrLe_refl (l : List ℕ) : pyStrLe l l = true := by
  induction l with
  | nil => rfl
  | cons a as ih => simp [pyStrLe, ih]

theorem pyStrLe_total (a b : List ℕ) : pyStrLe a b = true ∨ pyStrLe b a = true := by
  induction a generalizing b with
  | nil => left; rfl
  | cons x xs ih =>
    cases b with
    | nil => right; rfl
    | cons y ys =>
      rcases Nat.lt_trichotomy x y with h | h | h
      · left; simp [pyStrLe, h]
      · subst h
        rcases ih ys with h' | h'
        · left; simp [pyStrLe, h']
        · right; simp [pyStrLe, h']
      · right; simp [pyStrLe, h]

theorem pyStrLe_trans {a b c : List ℕ} (h1 : pyStrLe a b = true) (h2 : pyStrLe b c = true) :
    pyStrLe a c = true := by
  induction a generalizing b c with
  | nil => rfl
  | cons x xs ih =>
    cases b with
    | nil => simp [pyStrLe] at h1
    | cons y ys =>
      cases c with
      | nil => simp [pyStrLe] at h2
      | cons z zs =>
        simp only [pyStrLe] at h1 h2 ⊢
        split_ifs at h1 h2 ⊢ <;> first | rfl | omega | (exact ih h1 h2)

theorem pyStrLe_append_same (p a b : List ℕ) :
    pyStrLe (p ++ a) (p ++ b) = pyStrLe a b := by
  induction p with
  | nil => rfl
  | cons x xs ih => simp [pyStrLe, ih]

theorem insertLe_perm (le : α → α → Bool) (x : α) (l : List α) :
    (insertLe le x l).Perm (x :: l) := by
  induction l with
  | nil => exact List.Perm.refl _
  | cons y ys ih =>
    simp only [insertLe]
    split
    · exact List.Perm.refl _
    · exact (ih.cons y).trans (List.Perm.swap x y ys)

theorem sortLe_perm (le : α → α → Bool) (l : List α) : (sortLe le l).Perm l := by
  induction l with
  | nil => exact List.Perm.refl _
  | cons x xs ih =>
    exact (insertLe_perm le x (sortLe le xs)).trans (ih.cons x)

theorem insertLe_pairwise (le : α → α → Bool)
    (total : ∀ a b, le a b = true ∨ le b a = true)
    (tr : ∀ {a b c}, le a b = true → le b c = true → le a c = true)
    (x : α) (l : List α) (h : l.Pairwise (fun a b => le a b = true)) :
    (insertLe le x l).Pairwise (fun a b => le a b = true) := by
  induction l with
  | nil => simp [insertLe]
  | cons y ys ih =>
    rcases h with _ | ⟨hy, hys⟩
    simp only [insertLe]
    split
    · next hxy =>
      refine List.Pairwise.cons ?_ (List.Pairwise.cons hy hys)
      intro z hz
      rcases List.mem_cons.mp hz with rfl | hz'
      · exact hxy
      · exact tr hxy (hy z hz')
    · next hxy =>
      have hyx : le y x = true := by
        rcases total x y with h' | h'
        · exact absurd h' hxy
        · exact h'
      refine List.Pairwise.cons ?_ (ih hys)
      intro z hz
      have := (insertLe_perm le x ys).mem_iff.mp hz
      rcases List.mem_cons.mp this with rfl | hz'
      · exact hyx
      · exact hy z hz'

theorem sortLe_pairwise (le : α → α → Bool)
    (total : ∀ a b, le a b = true ∨ le b a = true)
    (tr : ∀ {a b c}, le a b = true → le b c = true → le a c = true)
    (l : List α) : (sortLe le l).Pairwise (fun a b => le a b = true) := by
  induction l with
  | nil => simp [sortLe]
  | cons x xs ih => exact insertLe_pairwise le total (fun h1 h2 => tr h1 h2) x _ ih

theorem sortLe_eq_self (le : α → α → Bool) (l : List α)
    (h : l.Pairwise (fun a b => le a b = true)) : sortLe le l = l := by
  induction l with
  | nil => rfl
  | cons x xs ih =>
    rcases h with _ | ⟨hx, hxs⟩
    rw [sortLe, ih hxs]
    cases xs with
    | nil => rfl
    | cons y ys => simp [insertLe, hx y (List.mem_cons_self y ys)]

theorem eq_of_perm_map_eq {α β : Type _} (f : α → β) :
    ∀ (l₁ l₂ : List α), l₁.Perm l₂ → l₁.map f = l₂.map f → (l₂.map f).Nodup → l₁ = l₂ := by
  intro l₁
  induction l₁ with
  | nil =>
    intro l₂ hp _ _
    exact (hp.nil_eq).symm ▸ rfl
  | cons a t₁ ih =>
    intro l₂ hp hm hn
    cases l₂ with
    | nil => exact absurd hp.length_eq (by simp)
    | cons b t₂ =>
      simp only [List.map_cons, List.cons.injEq] at hm
      have hab : a = b := by
        have ham : a ∈ b :: t₂ := hp.mem_iff.mp (List.mem_cons_self a t₁)
        rcases List.mem_cons.mp ham with rfl | hat
        · rfl
        · exfalso
          have : f a ∈ t₂.map f := List.mem_map_of_mem f hat
          rw [hm.1] at this
          simp only [List.map_cons, List.nodup_cons] at hn
          exact hn.1 this
      subst hab
      have := ih t₂ (hp.cons_inv) hm.2 (by
        simp only [List.map_cons, List.nodup_cons] at hn
        exact hn.2)
      rw [this]

theorem pairwise_map_range {α : Type _} {S : α → α → Prop} (g : ℕ → α) (n : ℕ)
    (h : ∀ i j, i < j → j < n → S (g i) (g j)) : ((List.range n).map g).Pairwise S := by
  rw [List.pairwise_map, List.pairwise_iff_get]
  intro i j hij
  simp only [List.get_eq_getElem, List.getElem_range]
  exact h i.val j.val hij (by simpa using j.isLt)

theorem map_getD_range {α : Type _} (l : List α) (d : α) :
    (List.range l.length).map (fun i => l.getD i d) = l := by
  apply List.ext_getElem (by simp)
  intro i h1 h2
  simp only [List.getElem_map, List.getElem_range]
  exact List.getD_eq_getElem l d h2

theorem pad04_le_of_lt {i j : ℕ} (hij : i < j) (hj : j < 10000) (s : List ℕ) :
    pyStrLe (pad04 i ++ s) (pad04 j ++ s) = true := by
  have hi : i < 10000 := lt_trans hij hj
  simp only [pad04, if_pos hi, if_pos hj, List.cons_append, List.nil_append]
  simp only [pyStrLe, pyStrLe_refl]
  split_ifs <;> first | rfl | omega

theorem frameName_le_of_lt {i j : ℕ} (hij : i < j) (hj : j < 10000) :
    pyStrLe (frameName i) (frameName j) = true := by
  simp only [frameName, List.append_assoc]
  rw [pyStrLe_append_same]
  exact pad04_le_of_lt hij hj _

theorem cropStep_no_dets (sim : SimFn) (coeff : ℚ) (sf : Bool) (n : ℕ)
    (st : TrackState) (fr : Frame) (h : fr.dets = []) :
    cropStep sim coeff sf n st fr = (st, [[none]]) := by
  simp [cropStep, h]

theorem trackLoop_no_dets (sim : SimFn) (coeff : ℚ) (sf : Bool) (st : TrackState) (n : ℕ)
    (fr : Frame) (rest : List Frame) (h : fr.dets = []) :
    trackLoop sim coeff sf st n (fr :: rest) =
      [none] :: trackLoop sim coeff sf st (n + 1) rest := by
  simp [trackLoop, cropStep_no_dets sim coeff sf n st fr h]

theorem trackLoop_all_no_dets (sim : SimFn) (coeff : ℚ) (sf : Bool) :
    ∀ (l : List Frame), (∀ fr ∈ l, fr.dets = []) → ∀ (st : TrackState) (n : ℕ),
      trackLoop sim coeff sf st n l = l.map (fun _ => [none]) := by
  intro l
  induction l with
  | nil => intro _ _ _; rfl
  | cons fr rest ih =>
    intro h st n
    rw [trackLoop_no_dets sim coeff sf st n fr rest (h fr (List.mem_cons_self fr rest))]
    rw [ih (fun g hg => h g (List.mem_cons_of_mem fr hg)) st (n + 1)]
    rfl

theorem crop_all_no_dets (sim : SimFn) (coeff : ℚ) (sf : Bool) (frames : List Frame)
    (fields : Option SquareFace) (h : ∀ fr ∈ frames, fr.dets = []) :
    face_detect_with_alignment_crop sim coeff sf frames fields =
      frames.map (fun _ => [none]) := by
  cases frames with
  | nil => rfl
  | cons first rest =>
    rw [face_detect_with_alignment_crop]
    exact trackLoop_all_no_dets sim coeff sf (first :: rest) h _ 0

theorem swapLoop_map_some (swapFn : SwapFn) (src : SrcFace) :
    ∀ (l : List Face) (img : Img),
      swapLoop swapFn src img (l.map some) = l.foldl (fun im f => swapFn im f src) img := by
  intro l
  induction l with
  | nil => intro img; rfl
  | cons f fs ih => intro img; simp [swapLoop, List.foldl, ih]

theorem pyMinIdxAux_lt : ∀ (rest : List ℚ) (i besti : ℕ) (bestd : ℚ), besti < i →
    pyMinIdxAux rest i besti bestd < i + rest.length := by
  intro rest
  induction rest with
  | nil =>
    intro i besti bestd h
    simpa [pyMinIdxAux] using h
  | cons d rest ih =>
    intro i besti bestd h
    rw [pyMinIdxAux]
    split
    · have h2 := ih (i + 1) i d (Nat.lt_succ_self i)
      simp only [List.length_cons]
      omega
    · have h2 := ih (i + 1) besti bestd (Nat.lt_succ_of_lt h)
      simp only [List.length_cons]
      omega

theorem pyMinIdx_lt_length (ds : List ℚ) (h : ds ≠ []) : pyMinIdx ds < ds.length := by
  cases ds with
  | nil => exact absurd rfl h
  | cons d rest =>
    rw [pyMinIdx]
    have h2 := pyMinIdxAux_lt rest 1 0 d (by omega)
    simp only [List.length_cons]
    omega

theorem pyMinIdxAux_spec (val : ℕ → ℚ) : ∀ (rest : List ℚ) (i besti : ℕ) (bestd : ℚ),
    (∀ k, k < rest.length → val (i + k) = rest.getD k 0) →
    val besti = bestd →
    val (pyMinIdxAux rest i besti bestd) ≤ bestd ∧
    ∀ k, k < rest.length → val (pyMinIdxAux rest i besti bestd) ≤ rest.getD k 0 := by
  intro rest
  induction rest with
  | nil =>
    intro i besti bestd _ hb
    exact ⟨le_of_eq hb, fun k hk => absurd hk (by simp)⟩
  | cons d rest ih =>
    intro i besti bestd hmap hb
    have hd0 : val i = d := by simpa using hmap 0 (by simp)
    have hshift : ∀ k, k < rest.length → val (i + 1 + k) = rest.getD k 0 := by
      intro k hk
      have := hmap (k + 1) (by simpa using Nat.succ_lt_succ hk)
      have harith : i + (k + 1) = i + 1 + k := by omega
      rw [harith] at this
      simpa using this
    rw [pyMinIdxAux]
    split
    · next hlt =>
      obtain ⟨h1, h2⟩ := ih (i + 1) i d hshift hd0
      refine ⟨le_trans h1 (le_of_lt hlt), ?_⟩
      intro k hk
      cases k with
      | zero => simpa using h1
      | succ k' =>
        have := h2 k' (by simpa using Nat.lt_of_succ_lt_succ hk)
        simpa using this
    · next hge =>
      obtain ⟨h1, h2⟩ := ih (i + 1) besti bestd hshift hb
      refine ⟨h1, ?_⟩
      intro k hk
      cases k with
      | zero =>
        have hdge : bestd ≤ d := le_of_not_lt hge
        simpa using le_trans h1 hdge
      | succ k' =>
        have := h2 k' (by simpa using Nat.lt_of_succ_lt_succ hk)
        simpa using this

theorem pyMinIdx_min (ds : List ℚ) (hds : ds ≠ []) :
    ∀ x ∈ ds, ds.getD (pyMinIdx ds) 0 ≤ x := by
  cases ds with
  | nil => exact absurd rfl hds
  | cons d rest =>
    intro x hx
    have spec := pyMinIdxAux_spec (fun j => (d :: rest).getD j 0) rest 1 0 d
      (fun k hk => by
        have harith : 1 + k = k + 1 := by omega
        simp [harith]) rfl
    rw [List.mem_iff_getElem] at hx
    obtain ⟨k, hk, hxk⟩ := hx
    rw [pyMinIdx]
    cases k with
    | zero =>
      have : x = d := by simpa using hxk.symm
      rw [this]
      exact spec.1
    | succ k' =>
      have hk' : k' < rest.length := by simpa using Nat.lt_of_succ_lt_succ hk
      have hval : x = rest.getD k' 0 := by
        rw [List.getD_eq_getElem rest 0 hk']
        simpa using hxk.symm
      rw [hval]
      exact spec.2 k' hk'

/-- C1: in warm tracking the source reassigns `x_center`/`y_center` to each
candidate's own box center before the containment test, so a face whose
embedding is similar but whose box does not contain the last tracked center
`(5,5)` and whose gender differs from the tracked gender `0` is still
selected, contradicting the specified acceptance rule. -/
theorem c1_warm_center_gender_bug :
    face_detect_with_alignment_crop c1Sim (95/100) false [c1Frame0, c1Frame1] none =
      [[some c1Face0], [some c1Face1]] ∧
    (cropStep c1Sim (95/100) false 0 (initTrackState c1Frame0 none) c1Frame0).1.xc = some 5 ∧
    (cropStep c1Sim (95/100) false 0 (initTrackState c1Frame0 none) c1Frame0).1.yc = some 5 ∧
    (cropStep c1Sim (95/100) false 0 (initTrackState c1Frame0 none) c1Frame0).1.gender = some 0 ∧
    c1Sim c1Face1.normed_embedding [c1Face0.normed_embedding] (95/100) = true ∧
    bbox_contains c1Face1.bbox 5 5 = false ∧
    c1Face1.gender ≠ c1Face0.gender := by
  refine ⟨?_, ?_, ?_, ?_, rfl, by norm_num [bbox_contains, c1Face1], by norm_num [c1Face0, c1Face1]⟩
  · norm_num [face_detect_with_alignment_crop, trackLoop, cropStep, initTrackState,
      get_real_crop_box, get_min_distance, adoptFace, warmParams, warmSelect, bbox_contains,
      pyInt, c1Frame0, c1Frame1, c1Face0, c1Face1, c1Sim, List.enum]
  all_goals
    norm_num [cropStep, initTrackState, get_real_crop_box, adoptFace, pyInt,
      c1Frame0, c1Face0, c1Sim]

/-- C3: with `start_frame = 1` and `end_frame = None` on three input frames,
both strategies skip the range narrowing (the guard tests truthiness of both
bounds) yet still write the verbatim head copy, so the output holds four
frames, with the first input frame written twice. -/
theorem c3_range_truthiness_bug :
    c3Listing.length = 3 ∧
    swap_video_thread (fun _ _ _ => false) (95/100) false c2Read (fun i _ _ => i) 0
        c3Listing none false (some 1) none =
      [codes "0000.png", codes "0000.png", codes "0001.png", codes "0002.png"] ∧
    swap_video_cuda (fun _ _ _ => false) (95/100) false c2Read (fun i _ _ => i) 0
        c3Listing none false (some 1) none =
      [codes "0000.png", codes "0000.png", codes "0001.png", codes "0002.png"] :=
  ⟨rfl, by decide, by decide⟩

/-- C4: during an unseeded cold start with a selector, a frame whose detections
all miss the initial center appends nothing to `predictions` (on frame 0 the
fallback also adopts nothing when every face is out of budget, and on later
frames the fallback is skipped), so the tracker returns one selection for two
input frames instead of one per frame. -/
theorem c4_missing_selection_bug :
    face_detect_with_alignment_crop (fun _ _ _ => false) (95/100) false
        [c4Frame0, c4Frame1] (some c4Sq) = [[none]] ∧
    ([c4Frame0, c4Frame1] : List Frame).length = 2 ∧
    ([[none]] : List (List (Option Face))).length = 1 := by
  refine ⟨?_, rfl, rfl⟩
  norm_num [face_detect_with_alignment_crop, trackLoop, cropStep, initTrackState,
    get_real_crop_box, adoptFace, bbox_contains, pyInt,
    c4Frame0, c4Frame1, c4Face, c4Sq, List.find?]

/-- C6: when the content filter reports unsafe, the frame passes through
unchanged in the threaded per-frame worker, in the sequential per-frame body,
and in the still-image path, which returns normally instead of raising; the
swap collaborator is irrelevant to the result in all three. -/
theorem c6_unsafe_gate_passthrough (swapFn : SwapFn) (src : SrcFace) (fr : Frame)
    (sel : List (Option Face)) (idx : ℕ) (face_fields : Option SquareFace) (multiface : Bool)
    (h : fr.safe = false) :
    (process_frame swapFn src fr sel idx).2 = fr.img ∧
    cudaFrameImg swapFn src fr sel = fr.img ∧
    swap_image swapFn src fr face_fields multiface = .ok fr.img := by
  refine ⟨?_, ?_, ?_⟩ <;> simp [process_frame, cudaFrameImg, swap_image, h]

/-- Witness for C6 at a concrete unsafe frame with a face and a swap
collaborator that would visibly rewrite the image. -/
theorem c6_witness :
    c6Frame.safe = false ∧
    (process_frame c6Swap 0 c6Frame [some c6Face] 0).2 = c6Frame.img ∧
    cudaFrameImg c6Swap 0 c6Frame [some c6Face] = c6Frame.img ∧
    swap_image c6Swap 0 c6Frame none false = .ok c6Frame.img :=
  ⟨rfl, c6_unsafe_gate_passthrough c6Swap 0 c6Frame [some c6Face] 0 none false rfl⟩

/-- C7: an empty detector result is fatal on the still-image path (the call
returns the raised `FaceNotDetectedError`) but non-fatal on the video path:
the tracker appends the empty selection `[None]` for that frame and continues
with the remaining frames from unchanged state. -/
theorem c7_detector_empty_policy :
    (∀ (swapFn : SwapFn) (src : SrcFace) (fr : Frame) (face_fields : Option SquareFace)
       (multiface : Bool), fr.safe = true → fr.dets = [] →
       swap_image swapFn src fr face_fields multiface =
         .error (.faceNotDetected "Face is not detected in target image!")) ∧
    (∀ (sim : SimFn) (coeff : ℚ) (sf : Bool) (st : TrackState) (n : ℕ) (fr : Frame)
       (rest : List Frame), fr.dets = [] →
       trackLoop sim coeff sf st n (fr :: rest) =
         [none] :: trackLoop sim coeff sf st (n + 1) rest) := by
  constructor
  · intro swapFn src fr fields mf hs hd
    simp [swap_image, hs, hd]
  · intro sim coeff sf st n fr rest hd
    exact trackLoop_no_dets sim coeff sf st n fr rest hd

/-- Witness for C7 at a concrete safe, detection-free frame. -/
theorem c7_witness :
    c7Frame.safe = true ∧ c7Frame.dets = [] ∧
    swap_image (fun i _ _ => i) 0 c7Frame none false =
      .error (.faceNotDetected "Face is not detected in target image!") ∧
    trackLoop (fun _ _ _ => false) (95/100) false c7St 0 [c7Frame] =
      [none] :: trackLoop (fun _ _ _ => false) (95/100) false c7St 1 [] :=
  ⟨rfl, rfl, c7_detector_empty_policy.1 _ 0 c7Frame none false rfl rfl,
   c7_detector_empty_policy.2 _ (95/100) false c7St 0 c7Frame [] rfl⟩

/-- C9: with `multiface` the detection dispatch ignores the similarity
collaborator, the threshold, the single-face flag and the selector, selecting
every detected face of every frame (`[None]` only for detection-free frames),
and the per-frame worker then swaps every selected face in order. -/
theorem c9_multiface_bypass :
    (∀ (sim : SimFn) (coeff : ℚ) (sf : Bool) (frames : List Frame)
       (fields : Option SquareFace),
       chooseDetResults sim coeff sf true frames fields =
         frames.map (fun fr => if fr.dets = [] then [none] else fr.dets.map some)) ∧
    (∀ (swapFn : SwapFn) (src : SrcFace) (fr : Frame) (idx : ℕ), fr.safe = true →
       (process_frame swapFn src fr (fr.dets.map some) idx).2 =
         fr.dets.foldl (fun im f => swapFn im f src) fr.img) := by
  constructor
  · intro sim coeff sf frames fields
    rw [chooseDetResults, if_pos rfl]
    induction frames with
    | nil => rfl
    | cons fr rest ih =>
      rw [face_detect_with_alignment_all, ih]
      cases hd : fr.dets with
      | nil => simp [hd]
      | cons a as => simp [hd]
  · intro swapFn src fr idx hs
    simp [process_frame, hs, swapLoop_map_some]

/-- Witness for C9 at a concrete two-face frame. -/
theorem c9_witness :
    c9Frame.safe = true ∧
    chooseDetResults (fun _ _ _ => false) (95/100) false true [c9Frame] none =
      [c9Frame].map (fun fr => if fr.dets = [] then [none] else fr.dets.map some) ∧
    (process_frame (fun i _ _ => 0 :: i) 0 c9Frame (c9Frame.dets.map some) 0).2 =
      c9Frame.dets.foldl (fun im f => (fun i _ _ => 0 :: i : SwapFn) im f 0) c9Frame.img :=
  ⟨rfl, c9_multiface_bypass.1 _ _ _ _ _, c9_multiface_bypass.2 _ _ _ _ rfl⟩

/-- C10: on the still-image path with a selector, `multiface` off, a safe
verdict and a non-empty detection list, a swap is always performed on some
detected face (so the final raise is unreachable); when no box contains the
selector center, the face at the first index minimizing the Manhattan center
distance is swapped, with no distance cap. -/
theorem c10_still_image_always_swaps (swapFn : SwapFn) (src : SrcFace) (fr : Frame)
    (sq : SquareFace) (hs : fr.safe = true) (hd : fr.dets ≠ []) :
    (∃ f ∈ fr.dets, swap_image swapFn src fr (some sq) false = .ok (swapFn fr.img f src)) ∧
    (∀ cx cy, get_real_crop_box fr (some sq) = (some cx, some cy) →
      fr.dets.find? (fun g => bbox_contains g.bbox cx cy) = none →
      swap_image swapFn src fr (some sq) false =
        .ok (swapFn fr.img
          (fr.dets.getD (pyMinIdx (imageDistances fr.dets cx cy)) default) src) ∧
      ∀ x ∈ imageDistances fr.dets cx cy,
        (imageDistances fr.dets cx cy).getD (pyMinIdx (imageDistances fr.dets cx cy)) 0 ≤ x) := by
  obtain ⟨d0, ds, hdets⟩ : ∃ d0 ds, fr.dets = d0 :: ds := by
    cases h : fr.dets with
    | nil => exact absurd h hd
    | cons a as => exact ⟨a, as, rfl⟩
  obtain ⟨cx0, cy0, hbox⟩ : ∃ a b, get_real_crop_box fr (some sq) = (some a, some b) :=
    ⟨_, _, rfl⟩
  have hstep : ∀ result : Except PipeError Img,
      ((match fr.dets.find? (fun g => bbox_contains g.bbox cx0 cy0) with
       | some f => Except.ok (swapFn fr.img f src)
       | none => Except.ok (swapFn fr.img
           (fr.dets.getD (pyMinIdx (imageDistances fr.dets cx0 cy0)) default) src)) :
        Except PipeError Img) = result →
      swap_image swapFn src fr (some sq) false = result := by
    intro result hres
    rw [← hres]
    simp only [swap_image, hs, if_true, hdets, hbox]
    rw [← hdets]
    have hlen : 0 < (imageDistances fr.dets cx0 cy0).length := by
      simp [imageDistances, hdets]
    cases hfind : fr.dets.find? (fun g => bbox_contains g.bbox cx0 cy0) with
    | some f => simp [hfind]
    | none => simp [hfind, hlen]
  constructor
  · cases hfind : fr.dets.find? (fun g => bbox_contains g.bbox cx0 cy0) with
    | some f =>
      refine ⟨f, List.mem_of_find?_eq_some hfind, hstep _ ?_⟩
      rw [hfind]
    | none =>
      have hidx : pyMinIdx (imageDistances fr.dets cx0 cy0) < fr.dets.length := by
        have h1 := pyMinIdx_lt_length (imageDistances fr.dets cx0 cy0)
          (by simp [imageDistances, hdets])
        simpa [imageDistances] using h1
      refine ⟨fr.dets.getD (pyMinIdx (imageDistances fr.dets cx0 cy0)) default, ?_, hstep _ ?_⟩
      · rw [List.getD_eq_getElem fr.dets default hidx]
        exact List.getElem_mem hidx
      · rw [hfind]
  · intro cx cy hcrop hfind
    have hcxcy : cx0 = cx ∧ cy0 = cy := by
      rw [hcrop] at hbox
      exact ⟨Option.some.inj (congrArg Prod.fst hbox).symm,
             Option.some.inj (congrArg Prod.snd hbox).symm⟩
    obtain ⟨rfl, rfl⟩ := hcxcy
    refine ⟨hstep _ ?_, pyMinIdx_min _ (by simp [imageDistances, hdets])⟩
    rw [hfind]

/-- Witness for C10 at a concrete safe single-face frame whose face misses the
selector center. -/
theorem c10_witness :
    c10Frame.safe = true ∧ c10Frame.dets ≠ [] ∧
    (∃ f ∈ c10Frame.dets,
      swap_image (fun i _ _ => 0 :: i) 0 c10Frame (some c10Sq) false =
        .ok ((fun i _ _ => 0 :: i : SwapFn) c10Frame.img f 0)) :=
  ⟨rfl, by decide,
   (c10_still_image_always_swaps (fun i _ _ => 0 :: i) 0 c10Frame c10Sq rfl (by decide)).1⟩


theorem closestFold_spec (c : ℤ × ℤ) : ∀ (l : List Face) (md : ℝ) (cl : Option Face),
    (closestFold c l md cl).2 ≤ md ∧
    ((closestFold c l md cl).1 = cl ∨
      ∃ f, (closestFold c l md cl).1 = some f ∧ euclidean_distance c (get_center f) < md) := by
  intro l
  induction l with
  | nil => intro md cl; exact ⟨le_refl md, Or.inl rfl⟩
  | cons g rest ih =>
    intro md cl
    rw [closestFold]
    split
    · next hlt =>
      obtain ⟨h1, h2⟩ := ih (euclidean_distance c (get_center g)) (some g)
      refine ⟨le_trans h1 (le_of_lt hlt), ?_⟩
      rcases h2 with h2 | ⟨f, hf, hfd⟩
      · exact Or.inr ⟨g, h2, hlt⟩
      · exact Or.inr ⟨f, hf, lt_trans hfd hlt⟩
    · exact ih md cl

/-- C8: in the unseeded-with-selector branch, when no detection contains the
tracked center, the nearest-face fallback adopts a face only on frame index 0
and only when its center is strictly closer than the running `min_distance`
budget, which the tracker initializes to 35 percent of the first frame's
diagonal; on any later frame the branch appends nothing. -/
theorem c8_fallback_frame0_budget (sim : SimFn) (coeff : ℚ) (sf : Bool) (n : ℕ)
    (st : TrackState) (fr : Frame) (cx cy : ℤ) (f : Face)
    (hx : st.xc = some cx) (hy : st.yc = some cy) (hh : st.hist = [])
    (hd : fr.dets ≠ [])
    (hnc : ∀ g ∈ fr.dets, bbox_contains g.bbox cx cy = false) :
    ((cropStep sim coeff sf n st fr).2 = [[some f]] →
      n = 0 ∧ euclidean_distance (cx, cy) (get_center f) < st.minDist) ∧
    (n ≠ 0 → (cropStep sim coeff sf n st fr).2 = []) ∧
    (∀ (first : Frame) (fields : Option SquareFace),
      (initTrackState first fields).minDist =
        Real.sqrt ((first.height : ℝ) ^ 2 + (first.width : ℝ) ^ 2) * (35 / 100)) := by
  obtain ⟨d0, ds, hdets⟩ : ∃ d0 ds, fr.dets = d0 :: ds := by
    cases h : fr.dets with
    | nil => exact absurd h hd
    | cons a as => exact ⟨a, as, rfl⟩
  have hfind : fr.dets.find? (fun g => bbox_contains g.bbox cx cy) = none :=
    List.find?_eq_none.mpr (fun x hx' => by simp [hnc x hx'])
  obtain ⟨xc0, yc0, gen0, hist0, md0⟩ := st
  dsimp only at hx hy hh ⊢
  subst hx
  subst hy
  subst hh
  rw [hdets] at hfind
  have hred : cropStep sim coeff sf n ⟨some cx, some cy, gen0, [], md0⟩ fr =
      (if n = 0 then
        match closestFold (cx, cy) (d0 :: ds) md0 none with
        | (some f', md') =>
          ({ adoptFace ⟨some cx, some cy, gen0, [], md0⟩ f' with minDist := md' }, [[some f']])
        | (none, md') =>
          ((⟨some cx, some cy, gen0, [], md'⟩ : TrackState), ([] : List (List (Option Face))))
      else (⟨some cx, some cy, gen0, [], md0⟩, [])) := by
    simp only [cropStep, hdets, hfind]
  refine ⟨?_, ?_, ?_⟩
  · intro hsel
    rw [hred] at hsel
    by_cases hn : n = 0
    · subst hn
      rw [if_pos rfl] at hsel
      refine ⟨rfl, ?_⟩
      have spec := closestFold_spec (cx, cy) (d0 :: ds) md0 none
      rcases hcf : closestFold (cx, cy) (d0 :: ds) md0 none with ⟨cl, md'⟩
      rw [hcf] at hsel spec
      cases cl with
      | none => simp at hsel
      | some f' =>
        have hff : f' = f := by simpa using hsel
        subst hff
        rcases spec.2 with h2 | ⟨f'', hf'', hfd⟩
        · simp at h2
        · have hee : f' = f'' := by simpa using hf''
          rw [hee]
          exact hfd
    · rw [if_neg hn] at hsel
      simp at hsel
  · intro hn
    rw [hred, if_neg hn]
  · intro first fields
    simp only [initTrackState, get_min_distance]
    norm_num


/-- Witness for C8: a concrete fallback adoption on frame 0 within the budget,
with the state tied back to the tracker's initial state. -/
theorem c8_witness :
    c8St = initTrackState c8Frame (some c8Sq) ∧
    ((0 : ℕ) = 0 ∧ euclidean_distance (0, 0) (get_center c8Face) < c8St.minDist) := by
  have hsqrt : Real.sqrt 2500 = 50 := by
    rw [show (2500 : ℝ) = 50 ^ 2 by norm_num]
    exact Real.sqrt_sq (by norm_num)
  have hdist : euclidean_distance (0, 0) (get_center c8Face) < (35 / 2 : ℝ) := by
    have hc : get_center c8Face = (8, 4) := by
      norm_num [get_center, c8Face, pyInt]
    rw [hc, euclidean_distance]
    rw [Real.sqrt_lt' (by norm_num : (0 : ℝ) < 35 / 2)]
    norm_num
  have hbc : bbox_contains c8Face.bbox 0 0 = false := by
    norm_num [bbox_contains, c8Face]
  have hnc : ∀ g ∈ c8Frame.dets, bbox_contains g.bbox 0 0 = false := by
    intro g hg
    have hgc : g = c8Face := by simpa [c8Frame] using hg
    rw [hgc]
    exact hbc
  have hsel : (cropStep (fun _ _ _ => false) (95/100) false 0 c8St c8Frame).2 =
      [[some c8Face]] := by
    simp only [cropStep, c8St, c8Frame, List.find?, hbc, closestFold]
    rw [if_pos hdist]
    rfl
  constructor
  · have hpair : get_real_crop_box c8Frame (some c8Sq) = (some 0, some 0) := by
      norm_num [get_real_crop_box, c8Frame, c8Sq, pyInt]
    have h3 : get_min_distance c8Frame = 35 / 2 := by
      have harg : ((c8Frame.height : ℝ)) ^ 2 + ((c8Frame.width : ℝ)) ^ 2 = 2500 := by
        norm_num [c8Frame]
      rw [get_min_distance, harg, hsqrt]
      norm_num
    simp only [c8St, initTrackState, hpair, h3]
  · exact (c8_fallback_frame0_budget (fun _ _ _ => false) (95/100) false 0 c8St c8Frame
      0 0 c8Face rfl rfl rfl (by simp [c8Frame]) hnc).1 hsel


/-- Counterexample for C2: with a directory holding `a.jpg` and `b.png`, the
threaded strategy selects both files while the sequential strategy selects only
the `.png`, so the two strategies neither select the same file set nor write
the same frame sequence. -/
theorem c2_counterexample :
    threadFrameFiles c2Listing ≠ cudaFrameFiles c2Listing ∧
    swap_video_thread (fun _ _ _ => false) (95/100) false c2Read (fun i _ _ => i) 0
        c2Listing none false none none ≠
      swap_video_cuda (fun _ _ _ => false) (95/100) false c2Read (fun i _ _ => i) 0
        c2Listing none false none none :=
  ⟨by decide, by decide⟩

/-- Write phase of the threaded strategy in index order: once at most 10000
frames are processed, the zero-padded intermediate names are already sorted,
so sorting them is the identity and each slot holds the same frame the
sequential loop writes there. -/
theorem thread_mid_eq (swapFn : SwapFn) (src : SrcFace) (frames : List Frame)
    (dres : List (List (Option Face))) (n : ℕ) (hn : n ≤ 10000) :
    (sortLe (fun a b => pyStrLe a.1 b.1)
      ((List.range n).map fun i =>
        process_frame swapFn src (frames.getD i default) (dres.getD i [none]) i)).map (·.2) =
    (List.range n).map fun i =>
      cudaFrameImg swapFn src (frames.getD i default) (dres.getD i [none]) := by
  have hpw : ((List.range n).map fun i =>
      process_frame swapFn src (frames.getD i default) (dres.getD i [none]) i).Pairwise
      (fun a b => pyStrLe a.1 b.1 = true) := by
    apply pairwise_map_range
    intro i j hij hjn
    show pyStrLe (frameName i) (frameName j) = true
    exact frameName_le_of_lt hij (lt_of_lt_of_le hjn hn)
  rw [sortLe_eq_self _ _ hpw, List.map_map]
  rfl

/-- C2 (amended): when the directory holds no `.jpg` entries, the processed
range holds at most 10000 frames, and the tracker yields one selection per
frame, the threaded and sequential strategies select the same frame files and
write the same frame sequence. -/
theorem c2_amended_strategies_agree (sim : SimFn) (coeff : ℚ) (sf : Bool)
    (read : PyStr → Frame) (swapFn : SwapFn) (src : SrcFace) (listing : List PyStr)
    (fields : Option SquareFace) (multiface : Bool) (start_frame end_frame : Option ℕ)
    (hjpg : ∀ s ∈ listing, (codes ".jpg").isSuffixOf s = false)
    (hn : (rangeFiles start_frame end_frame (cudaFrameFiles listing)).length ≤ 10000)
    (hlen : (chooseDetResults sim coeff sf multiface
        ((rangeFiles start_frame end_frame (cudaFrameFiles listing)).map read) fields).length =
      (rangeFiles start_frame end_frame (cudaFrameFiles listing)).length) :
    swap_video_thread sim coeff sf read swapFn src listing fields multiface
        start_frame end_frame =
      swap_video_cuda sim coeff sf read swapFn src listing fields multiface
        start_frame end_frame := by
  have hfiles : threadFrameFiles listing = cudaFrameFiles listing := by
    unfold threadFrameFiles cudaFrameFiles
    congr 1
    apply List.filter_congr
    intro a ha
    simp [hjpg a ha]
  simp only [swap_video_thread, swap_video_cuda, hfiles]
  rw [thread_mid_eq swapFn src
    ((rangeFiles start_frame end_frame (cudaFrameFiles listing)).map read)
    (chooseDetResults sim coeff sf multiface
      ((rangeFiles start_frame end_frame (cudaFrameFiles listing)).map read) fields)
    (rangeFiles start_frame end_frame (cudaFrameFiles listing)).length hn]
  rw [hlen]


/-- Witness for the amended C2 at a concrete two-file `.png` directory. -/
theorem c2_amended_witness :
    (∀ s ∈ c2wListing, (codes ".jpg").isSuffixOf s = false) ∧
    (rangeFiles none none (cudaFrameFiles c2wListing)).length ≤ 10000 ∧
    (chooseDetResults (fun _ _ _ => false) (95/100) false false
        ((rangeFiles none none (cudaFrameFiles c2wListing)).map c2Read) none).length =
      (rangeFiles none none (cudaFrameFiles c2wListing)).length ∧
    swap_video_thread (fun _ _ _ => false) (95/100) false c2Read (fun i _ _ => i) 0
        c2wListing none false none none =
      swap_video_cuda (fun _ _ _ => false) (95/100) false c2Read (fun i _ _ => i) 0
        c2wListing none false none none :=
  ⟨by decide, by decide, by decide,
   c2_amended_strategies_agree (fun _ _ _ => false) (95/100) false c2Read (fun i _ _ => i) 0
     c2wListing none false none none (by decide) (by decide) (by decide)⟩

theorem c5Name_succ (i : ℕ) : c5Name (i + 1) = 97 :: c5Name i := by
  simp [c5Name, List.replicate_succ]

theorem c5Name_le : ∀ i j : ℕ, i ≤ j → pyStrLe (c5Name i) (c5Name j) = true := by
  intro i
  induction i with
  | zero =>
    intro j _
    cases j with
    | zero => exact pyStrLe_refl _
    | succ k =>
      rw [c5Name_succ]
      have h0 : c5Name 0 = 46 :: codes "png" := by decide
      rw [h0]
      simp [pyStrLe]
  | succ m ih =>
    intro j hij
    cases j with
    | zero => omega
    | succ k =>
      rw [c5Name_succ, c5Name_succ]
      simp [pyStrLe]
      exact ih k (by omega)

theorem c5Name_ne {i j : ℕ} (h : i ≠ j) : c5Name i ≠ c5Name j := by
  intro heq
  apply h
  have := congrArg List.length heq
  simpa [c5Name, codes] using this

theorem c5_files_eq : threadFrameFiles c5Listing = c5Listing := by
  have hfilter : (c5Listing.filter fun f =>
      (codes ".jpg").isSuffixOf f || (codes ".png").isSuffixOf f) = c5Listing := by
    rw [List.filter_eq_self]
    intro a ha
    obtain ⟨i, _, rfl⟩ := List.mem_map.mp ha
    have hsuf : (codes ".png").isSuffixOf (c5Name i) = true :=
      List.isSuffixOf_iff_suffix.mpr ⟨List.replicate i 97, rfl⟩
    simp [hsuf]
  have hpw : c5Listing.Pairwise (fun a b => pyStrLe a b = true) :=
    pairwise_map_range c5Name 10001 (fun i j hij _ => c5Name_le i j (le_of_lt hij))
  rw [threadFrameFiles, hfilter]
  exact sortLe_eq_self _ _ hpw

theorem getD_map_range {α : Type _} (f : ℕ → α) (n i : ℕ) (d : α) (hi : i < n) :
    ((List.range n).map f).getD i d = f i := by
  rw [List.getD_eq_getElem _ _ (by simpa using hi), List.getElem_map, List.getElem_range]

set_option maxRecDepth 8000 in
/-- Counterexample for C5: on a 10001-frame directory the threaded strategy
does not write the processed frames in input order, because the intermediate
name `frame_10000.png` sorts before `frame_1001.png`; if the written sequence
agreed with input order, the zero-padded name list would have to be sorted,
which fails at the `frame_9999.png` to `frame_10000.png` step. -/
theorem c5_counterexample :
    ¬ (swap_video_thread (fun _ _ _ => false) (95/100) false c5Read (fun i _ _ => i) 0
        c5Listing none false none none =
      (threadFrameFiles c5Listing).map (fun s => (c5Read s).img)) := by
  intro h
  have hself : c5Listing = (List.range 10001).map c5Name := rfl
  have hlen10001 : c5Listing.length = 10001 := by
    rw [hself, List.length_map, List.length_range]
  have hdres : chooseDetResults (fun _ _ _ => false) (95/100) false false
      (c5Listing.map c5Read) none = (c5Listing.map c5Read).map (fun _ => [none]) := by
    rw [chooseDetResults, if_neg (by simp)]
    apply crop_all_no_dets
    intro fr hfr
    obtain ⟨s, _, rfl⟩ := List.mem_map.mp hfr
    rfl
  have hrhs : (threadFrameFiles c5Listing).map (fun s => (c5Read s).img) = c5Listing := by
    rw [c5_files_eq]
    simp [c5Read]
  rw [hrhs] at h
  simp only [swap_video_thread] at h
  simp only [c5_files_eq] at h
  simp only [rangeFiles, pyTruthy] at h
  simp only [Bool.false_eq_true, Bool.false_and, if_false] at h
  simp only [hdres] at h
  rw [List.nil_append, List.append_nil] at h
  have hpairs_eq : (List.range c5Listing.length).map
      (fun i => process_frame (fun i _ _ => i) 0 ((c5Listing.map c5Read).getD i default)
        (((c5Listing.map c5Read).map (fun _ => [none])).getD i [none]) i) =
      (List.range 10001).map (fun i => (frameName i, c5Name i)) := by
    rw [hlen10001]
    apply List.map_congr_left
    intro i hi
    have hi' : i < 10001 := List.mem_range.mp hi
    have h1 : (c5Listing.map c5Read).getD i default = c5Read (c5Name i) := by
      rw [hself, List.map_map]
      exact getD_map_range (fun j => c5Read (c5Name j)) 10001 i default hi'
    have h2 : ((c5Listing.map c5Read).map (fun _ => [none])).getD i
        ([none] : List (Option Face)) = [none] := by
      rw [hself, List.map_map, List.map_map]
      exact getD_map_range (fun _ => [none]) 10001 i ([none] : List (Option Face)) hi'
    rw [h1, h2]
    rfl
  rw [hpairs_eq] at h
  have hsndmap : ((List.range 10001).map (fun i => (frameName i, c5Name i))).map (·.2) =
      c5Listing := by
    rw [List.map_map, hself]
    exact List.map_congr_left (fun a _ => rfl)
  have hnodup : (((List.range 10001).map (fun i => (frameName i, c5Name i))).map (·.2)).Nodup := by
    rw [hsndmap]
    exact pairwise_map_range c5Name 10001 (fun i j hij _ => c5Name_ne (Nat.ne_of_lt hij))
  have hperm := sortLe_perm (fun a b : PyStr × Img => pyStrLe a.1 b.1)
    ((List.range 10001).map (fun i => (frameName i, c5Name i)))
  have heq := eq_of_perm_map_eq (fun p : PyStr × Img => p.2) _ _ hperm
    (h.trans hsndmap.symm) hnodup
  have hsorted := sortLe_pairwise (fun a b : PyStr × Img => pyStrLe a.1 b.1)
    (fun a b => pyStrLe_total a.1 b.1) (fun h1 h2 => pyStrLe_trans h1 h2)
    ((List.range 10001).map (fun i => (frameName i, c5Name i)))
  rw [heq, List.pairwise_map, List.pairwise_iff_get] at hsorted
  have hbad := hsorted ⟨9999, by rw [List.length_range]; norm_num⟩
    ⟨10000, by rw [List.length_range]; norm_num⟩ (Fin.mk_lt_mk.mpr (by norm_num))
  simp only [List.get_eq_getElem, List.getElem_range] at hbad
  exact absurd hbad (by decide)

/-- C5 (amended): under either strategy and for any start/end combination,
whenever the selected frame range holds at most 10000 frames and the tracker
returns one selection per selected frame file (the non-raising domain of the
source, see C4), the processed segment is written in input index order
regardless of worker completion order -- the threaded strategy's sort of the
zero-padded intermediate names is the identity there -- between the verbatim
head and tail copies; with 10001 or more frames this fails, because the
zero-padded names no longer sort in index order. -/
theorem c5_amended_order (sim : SimFn) (coeff : ℚ) (sf : Bool) (read : PyStr → Frame)
    (swapFn : SwapFn) (src : SrcFace) (listing : List PyStr)
    (fields : Option SquareFace) (multiface : Bool) (start_frame end_frame : Option ℕ)
    (hn : (rangeFiles start_frame end_frame (threadFrameFiles listing)).length ≤ 10000)
    (hlenT : (chooseDetResults sim coeff sf multiface
        ((rangeFiles start_frame end_frame (threadFrameFiles listing)).map read) fields).length =
      (rangeFiles start_frame end_frame (threadFrameFiles listing)).length)
    (hlenC : (chooseDetResults sim coeff sf multiface
        ((rangeFiles start_frame end_frame (cudaFrameFiles listing)).map read) fields).length =
      (rangeFiles start_frame end_frame (cudaFrameFiles listing)).length) :
    swap_video_thread sim coeff sf read swapFn src listing fields multiface
        start_frame end_frame =
      (if pyTruthy start_frame then
        ((threadFrameFiles listing).take (start_frame.getD 0)).map (fun f => (read f).img)
      else []) ++
      (List.range (chooseDetResults sim coeff sf multiface
          ((rangeFiles start_frame end_frame (threadFrameFiles listing)).map read)
          fields).length).map
        (fun i => (process_frame swapFn src
          (((rangeFiles start_frame end_frame (threadFrameFiles listing)).map read).getD i default)
          ((chooseDetResults sim coeff sf multiface
            ((rangeFiles start_frame end_frame (threadFrameFiles listing)).map read)
            fields).getD i [none]) i).2) ++
      (if pyTruthy end_frame then
        ((threadFrameFiles listing).drop (end_frame.getD 0)).map (fun f => (read f).img)
      else []) ∧
    swap_video_cuda sim coeff sf read swapFn src listing fields multiface
        start_frame end_frame =
      (if pyTruthy start_frame then
        ((cudaFrameFiles listing).take (start_frame.getD 0)).map (fun f => (read f).img)
      else []) ++
      (List.range (rangeFiles start_frame end_frame (cudaFrameFiles listing)).length).map
        (fun i => cudaFrameImg swapFn src
          (((rangeFiles start_frame end_frame (cudaFrameFiles listing)).map read).getD i default)
          ((chooseDetResults sim coeff sf multiface
            ((rangeFiles start_frame end_frame (cudaFrameFiles listing)).map read)
            fields).getD i [none])) ++
      (if pyTruthy end_frame then
        ((cudaFrameFiles listing).drop (end_frame.getD 0)).map (fun f => (read f).img)
      else []) := by
  constructor
  · simp only [swap_video_thread]
    rw [hlenT]
    rw [thread_mid_eq swapFn src
      ((rangeFiles start_frame end_frame (threadFrameFiles listing)).map read)
      (chooseDetResults sim coeff sf multiface
        ((rangeFiles start_frame end_frame (threadFrameFiles listing)).map read) fields)
      (rangeFiles start_frame end_frame (threadFrameFiles listing)).length hn]
    rfl
  · simp only [swap_video_cuda]
    rw [hlenC]

/-- Witness for the amended C5 at a concrete three-file directory with a
narrowed frame range, on which the tracker returns one selection per frame. -/
theorem c5_amended_witness :
    (rangeFiles (some 1) (some 2) (threadFrameFiles c5wListing)).length ≤ 10000 ∧
    (chooseDetResults (fun _ _ _ => false) (95/100) false false
        ((rangeFiles (some 1) (some 2) (threadFrameFiles c5wListing)).map c5Read) none).length =
      (rangeFiles (some 1) (some 2) (threadFrameFiles c5wListing)).length ∧
    (chooseDetResults (fun _ _ _ => false) (95/100) false false
        ((rangeFiles (some 1) (some 2) (cudaFrameFiles c5wListing)).map c5Read) none).length =
      (rangeFiles (some 1) (some 2) (cudaFrameFiles c5wListing)).length ∧
    swap_video_thread (fun _ _ _ => false) (95/100) false c5Read (fun i _ _ => i) 0
        c5wListing none false (some 1) (some 2) =
      (if pyTruthy (some 1) then
        ((threadFrameFiles c5wListing).take ((some 1 : Option ℕ).getD 0)).map
          (fun f => (c5Read f).img)
      else []) ++
      (List.range (chooseDetResults (fun _ _ _ => false) (95/100) false false
          ((rangeFiles (some 1) (some 2) (threadFrameFiles c5wListing)).map c5Read)
          none).length).map
        (fun i => (process_frame (fun i _ _ => i) 0
          (((rangeFiles (some 1) (some 2) (threadFrameFiles c5wListing)).map c5Read).getD i default)
          ((chooseDetResults (fun _ _ _ => false) (95/100) false false
            ((rangeFiles (some 1) (some 2) (threadFrameFiles c5wListing)).map c5Read)
            none).getD i [none]) i).2) ++
      (if pyTruthy (some 2) then
        ((threadFrameFiles c5wListing).drop ((some 2 : Option ℕ).getD 0)).map
          (fun f => (c5Read f).img)
      else []) :=
  ⟨by decide, by decide, by decide,
   (c5_amended_order (fun _ _ _ => false) (95/100) false c5Read (fun i _ _ => i) 0
     c5wListing none false (some 1) (some 2) (by decide) (by decide) (by decide)).1⟩

end Wunjo
